import Mathlib

/-!
Shallow embedding of the Veritas marketplace core contracts:
`VeritasSoulboundBadge`, `ReputationEngine`, `VeritasEscrow` and
`VeritasCrossChainBridge`.  Addresses, chain selectors, timestamps and
token amounts are modelled as `Nat`; Solidity mappings become total
functions with the zero-initialised default; a reverting call is an
`Except.error` value, leaving the pre-state untouched by construction.
-/

namespace Veritas

abbrev Address := Nat

/-- Badge tiers of `VeritasSoulboundBadge.BadgeTier`, ordered
`None < Bronze < Silver < Gold < Platinum < Diamond`. -/
inductive Tier
  | noneT
  | bronze
  | silver
  | gold
  | platinum
  | diamond
deriving DecidableEq, Repr, Fintype

/-- The `uint8` value of a tier, as used by the Solidity comparisons
`uint8(tier) > uint8(current)`. -/
def Tier.toNat : Tier → Nat
  | .noneT => 0
  | .bronze => 1
  | .silver => 2
  | .gold => 3
  | .platinum => 4
  | .diamond => 5

/-- Tier thresholds `(minTrades, minRating)` set in the `ReputationEngine`
constructor. -/
def tierThreshold : Tier → Nat × Nat
  | .noneT => (0, 0)
  | .bronze => (10, 400)
  | .silver => (25, 450)
  | .gold => (50, 480)
  | .platinum => (100, 490)
  | .diamond => (250, 495)

/-- Model of `ReputationEngine._meetsThreshold`. -/
def meetsThreshold (tier : Tier) (trades rating : Nat) : Bool :=
  decide ((tierThreshold tier).1 ≤ trades) && decide ((tierThreshold tier).2 ≤ rating)

/-- Model of `ReputationEngine._determineEligibleTier`: checked from highest to
lowest, first match wins. -/
def determineEligibleTier (trades rating : Nat) : Tier :=
  if meetsThreshold .diamond trades rating then .diamond
  else if meetsThreshold .platinum trades rating then .platinum
  else if meetsThreshold .gold trades rating then .gold
  else if meetsThreshold .silver trades rating then .silver
  else if meetsThreshold .bronze trades rating then .bronze
  else .noneT

/-- Metadata stored by `VeritasSoulboundBadge.mintBadge`. -/
structure BadgeMetadata where
  tier : Tier
  tradesAtMint : Nat
  ratingAtMint : Nat
  mintTimestamp : Nat
  sourceChainId : Nat
deriving Repr

/-- State of the `VeritasSoulboundBadge` contract relevant to minting:
token counter, per-token metadata, the `(owner, tier) → tokenId` index and
the `userHighestTier` pointer. -/
structure BadgeState where
  tokenIdCounter : Nat
  badgeMetadata : Nat → Option BadgeMetadata
  userBadges : Address → Tier → Nat
  userHighestTier : Address → Tier

/-- Revert reasons of `VeritasSoulboundBadge.mintBadge`. -/
inductive BadgeError
  | zeroAddress
  | invalidTier
  | badgeAlreadyExists
deriving DecidableEq, Repr

/-- Model of `VeritasSoulboundBadge.mintBadge`:  rejects the zero address, tier
`None` and duplicate `(owner, tier)` badges; otherwise records the badge
and raises `userHighestTier` when the new tier is strictly higher. -/
def mintBadge (b : BadgeState) (recipient : Address) (tier : Tier)
    (trades rating now srcChain : Nat) : Except BadgeError BadgeState :=
  if recipient = 0 then .error .zeroAddress
  else if tier = .noneT then .error .invalidTier
  else if b.userBadges recipient tier ≠ 0 then .error .badgeAlreadyExists
  else
    let tokenId := b.tokenIdCounter + 1
    .ok { tokenIdCounter := tokenId
          badgeMetadata := Function.update b.badgeMetadata tokenId
            (some ⟨tier, trades, rating, now, srcChain⟩)
          userBadges := fun a t =>
            if a = recipient ∧ t = tier then tokenId else b.userBadges a t
          userHighestTier := fun a =>
            if a = recipient then
              (if (b.userHighestTier recipient).toNat < tier.toNat then tier
               else b.userHighestTier recipient)
            else b.userHighestTier a }

/-- Model of `ReputationEngine.UserReputation`. -/
structure UserReputation where
  totalTrades : Nat
  successfulTrades : Nat
  disputesWon : Nat
  disputesLost : Nat
  totalRatingPoints : Nat
  ratingCount : Nat
  lastTradeTimestamp : Nat
  joinTimestamp : Nat
  isActive : Bool
deriving DecidableEq, Repr

/-- The zero-initialised mapping default for `userReputations`. -/
def UserReputation.default : UserReputation :=
  ⟨0, 0, 0, 0, 0, 0, 0, 0, false⟩

/-- Model of `ReputationEngine.TradeRecord`. -/
structure TradeRecord where
  tradeId : Nat
  counterparty : Address
  amount : Nat
  rating : Nat
  timestamp : Nat
  wasBuyer : Bool
deriving DecidableEq, Repr

/-- State of the `ReputationEngine` contract together with its immutable
`chainId`, its role membership (granted at deployment, constant during
the operations modelled here) and the attached badge contract state. -/
structure RepState where
  userReputations : Address → UserReputation
  userTradeHistory : Address → List TradeRecord
  processedSyncIds : Nat → Bool
  badge : BadgeState
  chainId : Nat
  escrowRole : Address → Bool
  disputeResolverRole : Address → Bool
  crossChainRole : Address → Bool

/-- Revert reasons of the `ReputationEngine` entry points. -/
inductive RepError
  | unauthorized
  | invalidRating
deriving DecidableEq, Repr

/-- Model of `ReputationEngine._ensureRegistered`: initialise a fresh
`UserReputation` (zeros, join timestamp = now) unless already active. -/
def ensureRegistered (s : RepState) (user : Address) (now : Nat) : RepState :=
  if (s.userReputations user).isActive then s
  else { s with userReputations :=
          Function.update s.userReputations user ⟨0, 0, 0, 0, 0, 0, 0, now, true⟩ }

/-- Model of `ReputationEngine.registerUser`: an external function with no role
modifier whose body is exactly `_ensureRegistered`. -/
def registerUser (s : RepState) (_caller user : Address) (now : Nat) :
    Except RepError RepState :=
  .ok (ensureRegistered s user now)

/-- Model of `ReputationEngine._calculateAverageRating`: integer division of
cumulative points by rating count, zero when the count is zero. -/
def calculateAverageRating (s : RepState) (user : Address) : Nat :=
  let rep := s.userReputations user
  if rep.ratingCount = 0 then 0 else rep.totalRatingPoints / rep.ratingCount

/-- Model of `ReputationEngine._updateReputation`: bumps the trade and rating
counters, and appends to the bounded history (the source shifts every
element down by one and pops when the length is at least 100, which
drops the oldest entry, then pushes the new record). -/
def updateReputation (s : RepState) (user : Address) (rating : Nat)
    (counterparty : Address) (amount tradeId now : Nat) (wasBuyer : Bool) :
    RepState :=
  let rep := s.userReputations user
  let rep' := { rep with
    totalTrades := rep.totalTrades + 1
    successfulTrades := rep.successfulTrades + 1
    totalRatingPoints := rep.totalRatingPoints + rating
    ratingCount := rep.ratingCount + 1
    lastTradeTimestamp := now }
  let hist := s.userTradeHistory user
  let hist' := (if 100 ≤ hist.length then hist.tail else hist) ++
    [⟨tradeId, counterparty, amount, rating, now, wasBuyer⟩]
  { s with
    userReputations := Function.update s.userReputations user rep'
    userTradeHistory := Function.update s.userTradeHistory user hist' }

/-- Model of `ReputationEngine._checkAndMintBadge`: recompute the eligible tier
from successful trades and average rating; if it is strictly above the
user's current highest tier, attempt a badge mint, swallowing any mint
failure (the `try/catch` in the source). -/
def checkAndMintBadge (s : RepState) (user : Address) (now : Nat) : RepState :=
  let rep := s.userReputations user
  let avgRating := calculateAverageRating s user
  let currentHighest := s.badge.userHighestTier user
  let newTier := determineEligibleTier rep.successfulTrades avgRating
  if currentHighest.toNat < newTier.toNat then
    match mintBadge s.badge user newTier rep.successfulTrades avgRating now s.chainId with
    | .ok b => { s with badge := b }
    | .error _ => s
  else s

/-- Model of `ReputationEngine.recordTrade` (ESCROW_ROLE only): validates both
ratings in [100,500], ensures registration, updates both reputations
(each party receives the rating given to them), then checks badge
eligibility for seller and buyer. -/
def recordTrade (s : RepState) (caller : Address) (tradeId : Nat)
    (seller buyer : Address) (amount sellerRating buyerRating now : Nat) :
    Except RepError RepState :=
  if s.escrowRole caller then
    if sellerRating < 100 ∨ 500 < sellerRating then .error .invalidRating
    else if buyerRating < 100 ∨ 500 < buyerRating then .error .invalidRating
    else
      let s1 := ensureRegistered s seller now
      let s2 := ensureRegistered s1 buyer now
      let s3 := updateReputation s2 seller sellerRating buyer amount tradeId now false
      let s4 := updateReputation s3 buyer buyerRating seller amount tradeId now true
      let s5 := checkAndMintBadge s4 seller now
      .ok (checkAndMintBadge s5 buyer now)
  else .error .unauthorized

/-- Model of `ReputationEngine.recordDisputeResolution` (DISPUTE_RESOLVER_ROLE
only): increments the winner's `disputesWon` and the loser's
`disputesLost`, nothing else. -/
def recordDisputeResolution (s : RepState) (caller : Address) (_tradeId : Nat)
    (winner loser : Address) : Except RepError RepState :=
  if s.disputeResolverRole caller then
    let r1 := s.userReputations winner
    let reps1 := Function.update s.userReputations winner { r1 with disputesWon := r1.disputesWon + 1 }
    let s1 := { s with userReputations := reps1 }
    let r2 := s1.userReputations loser
    let reps2 := Function.update s1.userReputations loser { r2 with disputesLost := r2.disputesLost + 1 }
    .ok { s1 with userReputations := reps2 }
  else .error .unauthorized

/-- Model of `ReputationEngine.syncCrossChainReputation` (CROSS_CHAIN_ROLE only):
returns without any state change when the `syncId` was already
processed; otherwise marks it processed, registers the user if needed,
additively merges the incoming counters and re-checks badge
eligibility. -/
def syncCrossChainReputation (s : RepState) (caller user : Address)
    (_sourceChain addTrades addRatingPoints addRatingCount syncId now : Nat) :
    Except RepError RepState :=
  if s.crossChainRole caller then
    if s.processedSyncIds syncId then .ok s
    else
      let s0 := { s with processedSyncIds := Function.update s.processedSyncIds syncId true }
      let s1 := ensureRegistered s0 user now
      let rep := s1.userReputations user
      let rep' := { rep with
        totalTrades := rep.totalTrades + addTrades
        successfulTrades := rep.successfulTrades + addTrades
        totalRatingPoints := rep.totalRatingPoints + addRatingPoints
        ratingCount := rep.ratingCount + addRatingCount }
      let s2 := { s1 with userReputations := Function.update s1.userReputations user rep' }
      .ok (checkAndMintBadge s2 user now)
  else .error .unauthorized

/-! ## VeritasEscrow -/

/-- Model of `VeritasEscrow.TradeStatus`. -/
inductive TradeStatus
  | noneS
  | created
  | sellerAccepted
  | delivered
  | completed
  | disputed
  | resolved
  | cancelled
  | expired
deriving DecidableEq, Repr

/-- Model of `VeritasEscrow.Trade`. -/
structure Trade where
  tradeId : Nat
  buyer : Address
  seller : Address
  paymentToken : Address
  amount : Nat
  platformFee : Nat
  createdAt : Nat
  expiresAt : Nat
  deliveredAt : Nat
  completedAt : Nat
  status : TradeStatus
  itemDescription : String
  deliveryProof : String
  buyerRating : Nat
  sellerRating : Nat
deriving DecidableEq, Repr

/-- Model of `VeritasEscrow.Dispute`. -/
structure Dispute where
  tradeId : Nat
  initiator : Address
  reason : String
  buyerEvidence : String
  sellerEvidence : String
  winner : Address
  initiatedAt : Nat
  resolvedAt : Nat
  isResolved : Bool
deriving DecidableEq, Repr

/-- Zero-initialised mapping default for `disputes`. -/
def Dispute.default : Dispute := ⟨0, 0, "", "", "", 0, 0, 0, false⟩

/-- Deployment configuration of `VeritasEscrow`: fee recipient, fee rate
in basis points, durations, the supported-token allow-list, the
DISPUTE_RESOLVER_ROLE membership and the paused flag. -/
structure EscrowConfig where
  feeRecipient : Address
  platformFeeRate : Nat
  defaultExpiryDuration : Nat
  disputeWindow : Nat
  autoReleaseDelay : Nat
  supportedTokens : Address → Bool
  disputeResolverRole : Address → Bool
  paused : Bool

/-- The source initialises `platformFeeRate` to 250 and `updateFeeRate`
caps it at `MAX_FEE_RATE = 1000`. -/
def EscrowConfig.Valid (cfg : EscrowConfig) : Prop :=
  cfg.platformFeeRate ≤ 1000

/-- An ERC-20 `safeTransfer` out of the escrow contract. -/
structure Transfer where
  token : Address
  recipient : Address
  amount : Nat
deriving DecidableEq, Repr

/-- A call from the escrow into the `ReputationEngine`. -/
inductive RepCall
  | registerUser (user : Address)
  | recordTrade (tradeId : Nat) (seller buyer : Address)
      (amount sellerRating buyerRating : Nat)
  | recordDisputeResolution (tradeId : Nat) (winner loser : Address)
deriving DecidableEq, Repr

/-- State of one trade inside `VeritasEscrow`: the `trades[tradeId]` and
`disputes[tradeId]` records, plus the log of outgoing token transfers
and of calls made into the reputation engine. -/
structure EscrowState where
  trade : Trade
  dispute : Dispute
  transfersOut : List Transfer
  repCalls : List RepCall
deriving DecidableEq, Repr

/-- Revert reasons of `VeritasEscrow` (plus the `Pausable` revert). -/
inductive EscrowError
  | invalidTrade
  | invalidStatus
  | unauthorized
  | invalidRating
  | tokenNotSupported
  | insufficientAmount
  | disputeWindowClosed
  | alreadyRated
  | tradeNotExpired
  | enforcedPause
deriving DecidableEq, Repr

/-- Model of `VeritasEscrow.calculateFee`: `amount * platformFeeRate / BASIS_POINTS`. -/
def calculateFee (cfg : EscrowConfig) (amount : Nat) : Nat :=
  amount * cfg.platformFeeRate / 10000

/-- Model of `VeritasEscrow.createTrade`: allow-listed token, non-zero amount,
seller distinct from the buyer and from the zero address; computes the
platform fee, locks `amount` (the inbound `safeTransferFrom`) and
registers both parties with the reputation engine. -/
def createTrade (cfg : EscrowConfig) (caller seller paymentToken : Address)
    (amount : Nat) (itemDescription : String) (expiryDuration now tradeId : Nat) :
    Except EscrowError EscrowState :=
  if cfg.paused then .error .enforcedPause
  else if ¬ cfg.supportedTokens paymentToken then .error .tokenNotSupported
  else if amount = 0 then .error .insufficientAmount
  else if seller = 0 ∨ seller = caller then .error .invalidTrade
  else
    let fee := calculateFee cfg amount
    let expiry := now + (if 0 < expiryDuration then expiryDuration else cfg.defaultExpiryDuration)
    .ok { trade := { tradeId := tradeId, buyer := caller, seller := seller
                     paymentToken := paymentToken, amount := amount, platformFee := fee
                     createdAt := now, expiresAt := expiry, deliveredAt := 0, completedAt := 0
                     status := .created, itemDescription := itemDescription
                     deliveryProof := "", buyerRating := 0, sellerRating := 0 }
          dispute := Dispute.default
          transfersOut := []
          repCalls := [.registerUser caller, .registerUser seller] }

/-- Model of `VeritasEscrow.acceptTrade`. -/
def acceptTrade (s : EscrowState) (caller now : Nat) : Except EscrowError EscrowState :=
  if s.trade.status ≠ .created then .error .invalidStatus
  else if caller ≠ s.trade.seller then .error .unauthorized
  else if s.trade.expiresAt < now then .error .invalidTrade
  else .ok { s with trade := { s.trade with status := .sellerAccepted } }

/-- Model of `VeritasEscrow.markDelivered`. -/
def markDelivered (s : EscrowState) (caller now : Nat) (deliveryProof : String) :
    Except EscrowError EscrowState :=
  if s.trade.status ≠ .sellerAccepted then .error .invalidStatus
  else if caller ≠ s.trade.seller then .error .unauthorized
  else .ok { s with trade := { s.trade with
    status := .delivered, deliveredAt := now, deliveryProof := deliveryProof } }

/-- Model of `VeritasEscrow.confirmDelivery`: buyer only, state Delivered, rating
in [100,500]; completes the trade, records the buyer's rating of the
seller and pays `amount - platformFee` to the seller and `platformFee`
to the fee recipient. -/
def confirmDelivery (cfg : EscrowConfig) (s : EscrowState) (caller now sellerRating : Nat) :
    Except EscrowError EscrowState :=
  if s.trade.status ≠ .delivered then .error .invalidStatus
  else if caller ≠ s.trade.buyer then .error .unauthorized
  else if sellerRating < 100 ∨ 500 < sellerRating then .error .invalidRating
  else
    let sellerAmount := s.trade.amount - s.trade.platformFee
    .ok { s with
      trade := { s.trade with status := .completed, completedAt := now, buyerRating := sellerRating }
      transfersOut := s.transfersOut ++
        [⟨s.trade.paymentToken, s.trade.seller, sellerAmount⟩,
         ⟨s.trade.paymentToken, cfg.feeRecipient, s.trade.platformFee⟩] }

/-- Model of `VeritasEscrow.rateBuyer`: seller only, state Completed, not already
rated; once both ratings are in, calls `ReputationEngine.recordTrade`. -/
def rateBuyer (s : EscrowState) (caller _now buyerRating : Nat) :
    Except EscrowError EscrowState :=
  if s.trade.status ≠ .completed then .error .invalidStatus
  else if caller ≠ s.trade.seller then .error .unauthorized
  else if buyerRating < 100 ∨ 500 < buyerRating then .error .invalidRating
  else if s.trade.sellerRating ≠ 0 then .error .alreadyRated
  else
    let s' := { s with trade := { s.trade with sellerRating := buyerRating } }
    if s.trade.buyerRating ≠ 0 then
      .ok { s' with repCalls := s'.repCalls ++
        [.recordTrade s.trade.tradeId s.trade.seller s.trade.buyer
          s.trade.amount s.trade.buyerRating buyerRating] }
    else .ok s'

/-- Model of `VeritasEscrow.cancelTrade`: the caller check precedes the status
check in the source; buyer only, state Created; full refund. -/
def cancelTrade (s : EscrowState) (caller _now : Nat) : Except EscrowError EscrowState :=
  if caller ≠ s.trade.buyer then .error .unauthorized
  else if s.trade.status ≠ .created then .error .invalidStatus
  else .ok { s with
    trade := { s.trade with status := .cancelled }
    transfersOut := s.transfersOut ++ [⟨s.trade.paymentToken, s.trade.buyer, s.trade.amount⟩] }

/-- Model of `VeritasEscrow.claimExpiredTrade`: anyone, state Created or
SellerAccepted, strictly past expiry; full refund to the buyer. -/
def claimExpiredTrade (s : EscrowState) (_caller now : Nat) : Except EscrowError EscrowState :=
  if s.trade.status ≠ .created ∧ s.trade.status ≠ .sellerAccepted then .error .invalidStatus
  else if now ≤ s.trade.expiresAt then .error .tradeNotExpired
  else .ok { s with
    trade := { s.trade with status := .expired }
    transfersOut := s.transfersOut ++ [⟨s.trade.paymentToken, s.trade.buyer, s.trade.amount⟩] }

/-- Model of `VeritasEscrow.autoRelease`: anyone, state Delivered, at or after
`deliveredAt + autoReleaseDelay`; completes with a default 5-star buyer
rating and the same fund split as `confirmDelivery`. -/
def autoRelease (cfg : EscrowConfig) (s : EscrowState) (_caller now : Nat) :
    Except EscrowError EscrowState :=
  if s.trade.status ≠ .delivered then .error .invalidStatus
  else if now < s.trade.deliveredAt + cfg.autoReleaseDelay then .error .invalidTrade
  else
    let sellerAmount := s.trade.amount - s.trade.platformFee
    .ok { s with
      trade := { s.trade with status := .completed, completedAt := now, buyerRating := 500 }
      transfersOut := s.transfersOut ++
        [⟨s.trade.paymentToken, s.trade.seller, sellerAmount⟩,
         ⟨s.trade.paymentToken, cfg.feeRecipient, s.trade.platformFee⟩] }

/-- Model of `VeritasEscrow.raiseDispute`: buyer or seller, state Delivered,
within the dispute window; creates the dispute record with the
initiator's evidence in their slot. -/
def raiseDispute (cfg : EscrowConfig) (s : EscrowState) (caller now : Nat)
    (reason evidence : String) : Except EscrowError EscrowState :=
  if s.trade.status ≠ .delivered then .error .invalidStatus
  else if caller ≠ s.trade.buyer ∧ caller ≠ s.trade.seller then .error .unauthorized
  else if s.trade.deliveredAt + cfg.disputeWindow < now then .error .disputeWindowClosed
  else .ok { s with
    trade := { s.trade with status := .disputed }
    dispute := { tradeId := s.trade.tradeId, initiator := caller, reason := reason
                 buyerEvidence := if caller = s.trade.buyer then evidence else ""
                 sellerEvidence := if caller = s.trade.seller then evidence else ""
                 winner := 0, initiatedAt := now, resolvedAt := 0, isResolved := false } }

/-- Model of `VeritasEscrow.submitEvidence`: buyer or seller, state Disputed;
assigns the submitted evidence to the caller's evidence slot. -/
def submitEvidence (s : EscrowState) (caller : Nat) (evidence : String) :
    Except EscrowError EscrowState :=
  if s.trade.status ≠ .disputed then .error .invalidStatus
  else if caller ≠ s.trade.buyer ∧ caller ≠ s.trade.seller then .error .unauthorized
  else if caller = s.trade.buyer then
    .ok { s with dispute := { s.dispute with buyerEvidence := evidence } }
  else
    .ok { s with dispute := { s.dispute with sellerEvidence := evidence } }

/-- Model of `VeritasEscrow.resolveDispute` (DISPUTE_RESOLVER_ROLE only, state
Disputed, winner buyer or seller): the winner receives the full amount
if the buyer, or `amount - platformFee` with the fee routed to the fee
recipient if the seller; records the win/loss pair in the reputation
engine. -/
def resolveDispute (cfg : EscrowConfig) (s : EscrowState) (caller now : Nat)
    (winner : Address) : Except EscrowError EscrowState :=
  if ¬ cfg.disputeResolverRole caller then .error .unauthorized
  else if s.trade.status ≠ .disputed then .error .invalidStatus
  else if winner ≠ s.trade.buyer ∧ winner ≠ s.trade.seller then .error .invalidTrade
  else
    let winnerAmount := if winner = s.trade.seller
      then s.trade.amount - s.trade.platformFee else s.trade.amount
    let feeTransfers := if winner = s.trade.seller
      then [⟨s.trade.paymentToken, cfg.feeRecipient, s.trade.platformFee⟩] else []
    let loser := if winner = s.trade.buyer then s.trade.seller else s.trade.buyer
    .ok { s with
      trade := { s.trade with status := .resolved }
      dispute := { s.dispute with winner := winner, resolvedAt := now, isResolved := true }
      transfersOut := s.transfersOut ++ ⟨s.trade.paymentToken, winner, winnerAmount⟩ :: feeTransfers
      repCalls := s.repCalls ++ [.recordDisputeResolution s.trade.tradeId winner loser] }

/-- The mutating entry points of `VeritasEscrow` on an existing trade. -/
inductive EscrowOp
  | accept (caller now : Nat)
  | markDelivered (caller now : Nat) (deliveryProof : String)
  | confirmDelivery (caller now sellerRating : Nat)
  | rateBuyer (caller now buyerRating : Nat)
  | cancel (caller now : Nat)
  | claimExpired (caller now : Nat)
  | autoRelease (caller now : Nat)
  | raiseDispute (caller now : Nat) (reason evidence : String)
  | submitEvidence (caller : Nat) (evidence : String)
  | resolveDispute (caller now : Nat) (winner : Address)
deriving Repr

/-- Dispatch one entry point. -/
def applyOp (cfg : EscrowConfig) (s : EscrowState) : EscrowOp → Except EscrowError EscrowState
  | .accept caller now => acceptTrade s caller now
  | .markDelivered caller now proof => markDelivered s caller now proof
  | .confirmDelivery caller now rating => confirmDelivery cfg s caller now rating
  | .rateBuyer caller now rating => rateBuyer s caller now rating
  | .cancel caller now => cancelTrade s caller now
  | .claimExpired caller now => claimExpiredTrade s caller now
  | .autoRelease caller now => autoRelease cfg s caller now
  | .raiseDispute caller now reason evidence => raiseDispute cfg s caller now reason evidence
  | .submitEvidence caller evidence => submitEvidence s caller evidence
  | .resolveDispute caller now winner => resolveDispute cfg s caller now winner

/-- Trade states reachable through the contract: a successful
`createTrade` followed by any sequence of successful entry points. -/
inductive Reachable (cfg : EscrowConfig) : EscrowState → Prop
  | create (caller seller paymentToken : Address) (amount : Nat)
      (itemDescription : String) (expiryDuration now tradeId : Nat) (s : EscrowState) :
      createTrade cfg caller seller paymentToken amount itemDescription
        expiryDuration now tradeId = .ok s → Reachable cfg s
  | step (s s' : EscrowState) (op : EscrowOp) :
      Reachable cfg s → applyOp cfg s op = .ok s' → Reachable cfg s'

/-- Terminal trade statuses. -/
def TradeStatus.isTerminal : TradeStatus → Bool
  | .completed | .cancelled | .expired | .resolved => true
  | _ => false

/-- Total value paid out of escrow. -/
def transferTotal (ts : List Transfer) : Nat := (ts.map Transfer.amount).sum

/-! ## VeritasCrossChainBridge -/

/-- Model of `VeritasCrossChainBridge.MessageType`. -/
inductive MessageType
  | tokenTransfer
  | reputationSync
  | badgeRecognition
deriving DecidableEq, Repr

/-- Model of `VeritasCrossChainBridge.ChainConfig`. -/
structure ChainConfig where
  chainSelector : Nat
  bridgeContract : Address
  usdcToken : Address
  isActive : Bool
deriving DecidableEq, Repr

/-- Model of `VeritasCrossChainBridge.CrossChainMessage`; for a ReputationSync
message `data` decodes to `(additionalTrades, additionalRatingPoints,
additionalRatingCount)`. -/
structure CrossChainMessage where
  messageType : MessageType
  sender : Address
  recipient : Address
  amount : Nat
  data : Nat × Nat × Nat
deriving DecidableEq, Repr

/-- An inbound CCIP `Any2EVMMessage`: message id, source chain selector,
the abi-decoded sender contract address and the decoded body. -/
structure InboundMessage where
  messageId : Nat
  sourceChainSelector : Nat
  senderContract : Address
  body : CrossChainMessage
deriving DecidableEq, Repr

/-- State of `VeritasCrossChainBridge`: the attached reputation engine,
the bridge's own address (the `msg.sender` the engine sees), per-chain
configuration, the processed-message replay set, this contract's USDC
balance and the log of USDC transfers it has sent out. -/
structure BridgeState where
  rep : RepState
  bridgeAddr : Address
  chainConfigs : Nat → ChainConfig
  processedMessages : Nat → Bool
  usdcBalance : Nat
  usdcTransfers : List (Address × Nat)

/-- Revert reasons of the bridge; an engine revert inside
`_handleReputationSync` aborts the whole inbound dispatch. -/
inductive BridgeError
  | unsupportedChain
  | insufficientAmount
  | insufficientLiquidity
  | messageAlreadyProcessed
  | invalidMessageSource
  | engineRefused (e : RepError)
deriving DecidableEq, Repr

/-- The payload built by `VeritasCrossChainBridge.syncReputation` from
`getReputation(msg.sender)`:
`abi.encode(successfulTrades, averageRating * successfulTrades, successfulTrades)`. -/
def syncReputationPayload (s : RepState) (caller : Address) : Nat × Nat × Nat :=
  let successfulTrades := (s.userReputations caller).successfulTrades
  let averageRating := calculateAverageRating s caller
  (successfulTrades, averageRating * successfulTrades, successfulTrades)

/-- Model of `VeritasCrossChainBridge.syncReputation`: requires an active
destination chain, then dispatches a ReputationSync message carrying the
payload above. -/
def syncReputation (b : BridgeState) (caller : Address) (destinationChain : Nat) :
    Except BridgeError CrossChainMessage :=
  if ¬ (b.chainConfigs destinationChain).isActive then .error .unsupportedChain
  else .ok { messageType := .reputationSync, sender := caller, recipient := caller
             amount := 0, data := syncReputationPayload b.rep caller }

/-- The deterministic sync id
`keccak256(abi.encodePacked(messageId, sourceChain, sender))`, modelled
by an injective pairing of the three components. -/
def deriveSyncId (messageId sourceChain sender : Nat) : Nat :=
  Nat.pair (Nat.pair messageId sourceChain) sender

/-- Model of `VeritasCrossChainBridge._ccipReceive`: replay check on the message
id, source-address authentication against the configured peer bridge,
then dispatch by message type (a BadgeRecognition message only marks the
id processed, as the source has no branch for it). -/
def ccipReceive (b : BridgeState) (m : InboundMessage) (now : Nat) :
    Except BridgeError BridgeState :=
  if b.processedMessages m.messageId then .error .messageAlreadyProcessed
  else
    let b1 := { b with processedMessages := Function.update b.processedMessages m.messageId true }
    if m.senderContract ≠ (b.chainConfigs m.sourceChainSelector).bridgeContract then
      .error .invalidMessageSource
    else
      match m.body.messageType with
      | .tokenTransfer =>
          if b1.usdcBalance < m.body.amount then .error .insufficientLiquidity
          else .ok { b1 with
            usdcBalance := b1.usdcBalance - m.body.amount
            usdcTransfers := b1.usdcTransfers ++ [(m.body.recipient, m.body.amount)] }
      | .reputationSync =>
          let syncId := deriveSyncId m.messageId m.sourceChainSelector m.body.sender
          match syncCrossChainReputation b1.rep b1.bridgeAddr m.body.sender
              m.sourceChainSelector m.body.data.1 m.body.data.2.1 m.body.data.2.2 syncId now with
          | .ok r => .ok { b1 with rep := r }
          | .error e => .error (.engineRefused e)
      | .badgeRecognition => .ok b1

/-! ## Escrow invariants -/

/-- Exact disbursement discipline per trade status: nothing leaves the
escrow before a terminal transition; on Completed the seller receives
`amount - platformFee` and the fee recipient `platformFee`; on Cancelled
or Expired the buyer is refunded in full; on Resolved the dispute winner
receives the full amount (buyer) or `amount - platformFee` plus the fee
to the fee recipient (seller). -/
def payoutShape (cfg : EscrowConfig) (s : EscrowState) : Prop :=
  match s.trade.status with
  | .noneS => False
  | .created => s.transfersOut = []
  | .sellerAccepted => s.transfersOut = []
  | .delivered => s.transfersOut = []
  | .disputed => s.transfersOut = []
  | .completed =>
      s.transfersOut =
        [⟨s.trade.paymentToken, s.trade.seller, s.trade.amount - s.trade.platformFee⟩,
         ⟨s.trade.paymentToken, cfg.feeRecipient, s.trade.platformFee⟩]
  | .cancelled =>
      s.transfersOut = [⟨s.trade.paymentToken, s.trade.buyer, s.trade.amount⟩]
  | .expired =>
      s.transfersOut = [⟨s.trade.paymentToken, s.trade.buyer, s.trade.amount⟩]
  | .resolved =>
      (s.dispute.winner = s.trade.buyer ∧ s.dispute.winner ≠ s.trade.seller ∧
        s.transfersOut = [⟨s.trade.paymentToken, s.dispute.winner, s.trade.amount⟩]) ∨
      (s.dispute.winner = s.trade.seller ∧
        s.transfersOut =
          [⟨s.trade.paymentToken, s.dispute.winner, s.trade.amount - s.trade.platformFee⟩,
           ⟨s.trade.paymentToken, cfg.feeRecipient, s.trade.platformFee⟩])

/-- Inductive invariant of a live trade: the platform fee never exceeds
the amount, every Completed trade carries a validated buyer rating, and
the transfer log has the per-status disbursement shape. -/
def EscrowInv (cfg : EscrowConfig) (s : EscrowState) : Prop :=
  s.trade.platformFee ≤ s.trade.amount ∧
  (s.trade.status = .completed → 100 ≤ s.trade.buyerRating ∧ s.trade.buyerRating ≤ 500) ∧
  payoutShape cfg s

theorem calculateFee_le (cfg : EscrowConfig) (hv : cfg.Valid) (amount : Nat) :
    calculateFee cfg amount ≤ amount := by
  unfold EscrowConfig.Valid at hv
  unfold calculateFee
  calc amount * cfg.platformFeeRate / 10000
      ≤ amount * 10000 / 10000 :=
        Nat.div_le_div_right (Nat.mul_le_mul_left amount (hv.trans (by norm_num)))
    _ = amount := Nat.mul_div_cancel amount (by norm_num)

theorem createTrade_inv (cfg : EscrowConfig) (hv : cfg.Valid)
    (caller seller paymentToken : Address) (amount : Nat) (itemDescription : String)
    (expiryDuration now tradeId : Nat) (s : EscrowState)
    (h : createTrade cfg caller seller paymentToken amount itemDescription
      expiryDuration now tradeId = .ok s) : EscrowInv cfg s := by
  unfold createTrade at h
  split at h
  · exact Except.noConfusion h
  split at h
  · exact Except.noConfusion h
  split at h
  · exact Except.noConfusion h
  split at h
  · exact Except.noConfusion h
  cases h
  refine ⟨calculateFee_le cfg hv amount, ?_, ?_⟩
  · intro hc; exact absurd hc (by simp)
  · simp [payoutShape]

theorem applyOp_inv (cfg : EscrowConfig) (s s' : EscrowState) (op : EscrowOp)
    (_hv : cfg.Valid) (hinv : EscrowInv cfg s) (h : applyOp cfg s op = .ok s') :
    EscrowInv cfg s' := by
  obtain ⟨hfee, hrate, hshape⟩ := hinv
  cases op with
  | accept caller now =>
    simp only [applyOp] at h
    unfold acceptTrade at h
    split at h
    · exact Except.noConfusion h
    split at h
    · exact Except.noConfusion h
    split at h
    · exact Except.noConfusion h
    rename_i hst _ _
    rw [not_ne_iff] at hst
    cases h
    refine ⟨hfee, by simp, ?_⟩
    rw [payoutShape] at hshape ⊢
    simp only [hst] at hshape
    simpa using hshape
  | markDelivered caller now proof =>
    simp only [applyOp] at h
    unfold markDelivered at h
    split at h
    · exact Except.noConfusion h
    split at h
    · exact Except.noConfusion h
    rename_i hst _
    rw [not_ne_iff] at hst
    cases h
    refine ⟨hfee, by simp, ?_⟩
    rw [payoutShape] at hshape ⊢
    simp only [hst] at hshape
    simpa using hshape
  | confirmDelivery caller now rating =>
    simp only [applyOp] at h
    unfold confirmDelivery at h
    split at h
    · exact Except.noConfusion h
    split at h
    · exact Except.noConfusion h
    split at h
    · exact Except.noConfusion h
    rename_i hst _ hr
    rw [not_ne_iff] at hst
    push_neg at hr
    cases h
    refine ⟨hfee, by simpa using ⟨hr.1, hr.2⟩, ?_⟩
    rw [payoutShape] at hshape ⊢
    simp only [hst] at hshape
    simpa [hshape] using rfl
  | rateBuyer caller now rating =>
    simp only [applyOp] at h
    unfold rateBuyer at h
    split at h
    · exact Except.noConfusion h
    split at h
    · exact Except.noConfusion h
    split at h
    · exact Except.noConfusion h
    split at h
    · exact Except.noConfusion h
    rename_i hst _ _ _
    rw [not_ne_iff] at hst
    split at h <;> cases h <;>
      refine ⟨hfee, by simpa [hst] using hrate, ?_⟩ <;>
      · rw [payoutShape] at hshape ⊢
        simp only [hst] at hshape ⊢
        simpa using hshape
  | cancel caller now =>
    simp only [applyOp] at h
    unfold cancelTrade at h
    split at h
    · exact Except.noConfusion h
    split at h
    · exact Except.noConfusion h
    rename_i hst
    rw [not_ne_iff] at hst
    cases h
    refine ⟨hfee, by simp, ?_⟩
    rw [payoutShape] at hshape ⊢
    simp only [hst] at hshape
    simpa [hshape] using rfl
  | claimExpired caller now =>
    simp only [applyOp] at h
    unfold claimExpiredTrade at h
    split at h
    · exact Except.noConfusion h
    split at h
    · exact Except.noConfusion h
    rename_i hst _
    rw [not_and_or, not_ne_iff, not_ne_iff] at hst
    cases h
    refine ⟨hfee, by simp, ?_⟩
    rw [payoutShape] at hshape ⊢
    rcases hst with hst | hst <;> simp only [hst] at hshape <;> simpa [hshape] using rfl
  | autoRelease caller now =>
    simp only [applyOp] at h
    unfold autoRelease at h
    split at h
    · exact Except.noConfusion h
    split at h
    · exact Except.noConfusion h
    rename_i hst _
    rw [not_ne_iff] at hst
    cases h
    refine ⟨hfee, by simp, ?_⟩
    rw [payoutShape] at hshape ⊢
    simp only [hst] at hshape
    simpa [hshape] using rfl
  | raiseDispute caller now reason evidence =>
    simp only [applyOp] at h
    unfold raiseDispute at h
    split at h
    · exact Except.noConfusion h
    split at h
    · exact Except.noConfusion h
    split at h
    · exact Except.noConfusion h
    rename_i hst _ _
    rw [not_ne_iff] at hst
    cases h
    refine ⟨hfee, by simp, ?_⟩
    rw [payoutShape] at hshape ⊢
    simp only [hst] at hshape
    simpa using hshape
  | submitEvidence caller evidence =>
    simp only [applyOp] at h
    unfold submitEvidence at h
    split at h
    · exact Except.noConfusion h
    split at h
    · exact Except.noConfusion h
    rename_i hst _
    rw [not_ne_iff] at hst
    split at h <;> cases h <;>
      refine ⟨hfee, by simp [hst], ?_⟩ <;>
      · rw [payoutShape] at hshape ⊢
        simp only [hst] at hshape ⊢
        simpa using hshape
  | resolveDispute caller now winner =>
    simp only [applyOp] at h
    unfold resolveDispute at h
    split at h
    · exact Except.noConfusion h
    split at h
    · exact Except.noConfusion h
    split at h
    · exact Except.noConfusion h
    rename_i hst hw
    rw [not_ne_iff] at hst
    rw [not_and_or, not_ne_iff, not_ne_iff] at hw
    cases h
    refine ⟨hfee, by simp, ?_⟩
    rw [payoutShape] at hshape ⊢
    simp only [hst] at hshape
    by_cases hws : winner = s.trade.seller
    · right
      simp [hws, hshape]
    · have hwb : winner = s.trade.buyer := by
        rcases hw with hw | hw
        · exact hw
        · exact absurd hw hws
      rw [hwb] at hws
      rw [hwb]
      simp [hshape, hws]

/-- Every reachable trade state satisfies the inductive invariant. -/
theorem reachable_inv (cfg : EscrowConfig) (s : EscrowState) (hv : cfg.Valid)
    (hr : Reachable cfg s) : EscrowInv cfg s := by
  induction hr with
  | create caller seller paymentToken amount itemDescription expiryDuration now tradeId s h =>
    exact createTrade_inv cfg hv caller seller paymentToken amount itemDescription
      expiryDuration now tradeId s h
  | step s s' op _ h ih => exact applyOp_inv cfg s s' op hv ih h

/-! ## Concrete runs used by witnesses and counterexamples -/

/-- A concrete deployment: fee recipient 9, default 250 bps fee rate,
token 5 allow-listed, address 8 holding DISPUTE_RESOLVER_ROLE. -/
def cfgDemo : EscrowConfig :=
  { feeRecipient := 9, platformFeeRate := 250, defaultExpiryDuration := 7
    disputeWindow := 3, autoReleaseDelay := 14
    supportedTokens := fun a => decide (a = 5)
    disputeResolverRole := fun a => decide (a = 8)
    paused := false }

/-- Fallback state for extracting successful results (never used by the
runs below, which all succeed). -/
def escrowDummy : EscrowState :=
  { trade := { tradeId := 0, buyer := 0, seller := 0, paymentToken := 0, amount := 0
               platformFee := 0, createdAt := 0, expiresAt := 0, deliveredAt := 0
               completedAt := 0, status := .noneS, itemDescription := ""
               deliveryProof := "", buyerRating := 0, sellerRating := 0 }
    dispute := Dispute.default, transfersOut := [], repCalls := [] }

/-- Extract the committed state of a successful call. -/
def okOr (dflt : EscrowState) : Except EscrowError EscrowState → EscrowState
  | .ok s => s
  | .error _ => dflt

/-- Buyer 1 opens a 100-unit trade in token 5 with seller 2 at time 0. -/
def sCreatedDemo : EscrowState := okOr escrowDummy (createTrade cfgDemo 1 2 5 100 "" 0 0 42)

def sAcceptedDemo : EscrowState := okOr escrowDummy (acceptTrade sCreatedDemo 2 1)

def sDeliveredDemo : EscrowState := okOr escrowDummy (markDelivered sAcceptedDemo 2 2 "p")

def sCompletedDemo : EscrowState := okOr escrowDummy (confirmDelivery cfgDemo sDeliveredDemo 1 3 450)

def sCancelledDemo : EscrowState := okOr escrowDummy (cancelTrade sCreatedDemo 1 1)

/-- The buyer raises a dispute at time 3 with evidence "A". -/
def sDisputedDemo : EscrowState := okOr escrowDummy (raiseDispute cfgDemo sDeliveredDemo 1 3 "r" "A")

/-- The buyer then submits evidence "B". -/
def sEvidenceDemo : EscrowState := okOr escrowDummy (submitEvidence sDisputedDemo 1 "B")

/-! ## Claim C1 -/

/-- C1 — Fund conservation: in every reachable trade state with a
terminal status (Completed, Cancelled, Expired, Resolved) the total paid
out of escrow equals the trade's amount, and the disbursement has
exactly the claimed shape (`payoutShape`): Completed pays
`amount - platformFee` to the seller and `platformFee` to the fee
recipient; Cancelled/Expired refund the buyer in full; Resolved pays the
winning buyer the full amount with no fee, or the winning seller
`amount - platformFee` with the fee to the fee recipient. -/
theorem C1_fund_conservation (cfg : EscrowConfig) (s : EscrowState)
    (hv : cfg.Valid) (hr : Reachable cfg s)
    (ht : s.trade.status.isTerminal = true) :
    transferTotal s.transfersOut = s.trade.amount ∧ payoutShape cfg s := by
  obtain ⟨hfee, _, hshape⟩ := reachable_inv cfg s hv hr
  refine ⟨?_, hshape⟩
  rw [payoutShape] at hshape
  cases hstat : s.trade.status with
  | noneS => rw [hstat] at hshape; exact absurd hshape (by simp)
  | created => rw [hstat] at ht; exact absurd ht (by simp [TradeStatus.isTerminal])
  | sellerAccepted => rw [hstat] at ht; exact absurd ht (by simp [TradeStatus.isTerminal])
  | delivered => rw [hstat] at ht; exact absurd ht (by simp [TradeStatus.isTerminal])
  | disputed => rw [hstat] at ht; exact absurd ht (by simp [TradeStatus.isTerminal])
  | completed =>
    simp only [hstat] at hshape
    rw [hshape]
    simp [transferTotal]
    omega
  | cancelled =>
    simp only [hstat] at hshape
    rw [hshape]
    simp [transferTotal]
  | expired =>
    simp only [hstat] at hshape
    rw [hshape]
    simp [transferTotal]
  | resolved =>
    simp only [hstat] at hshape
    rcases hshape with ⟨-, -, hshape⟩ | ⟨-, hshape⟩ <;> rw [hshape] <;>
      simp [transferTotal] <;> omega

theorem C1_fund_conservation_witness :
    transferTotal sCancelledDemo.transfersOut = sCancelledDemo.trade.amount ∧
    payoutShape cfgDemo sCancelledDemo :=
  C1_fund_conservation cfgDemo sCancelledDemo
    (by unfold EscrowConfig.Valid; decide)
    (Reachable.step sCreatedDemo sCancelledDemo (.cancel 1 1)
      (Reachable.create 1 2 5 100 "" 0 0 42 sCreatedDemo rfl) rfl)
    rfl

/-! ## Claim C4 -/

/-- C4 counterexample — Scenario A on the code: with the 250 bps rate, a
trade of 100 smallest units gets `platformFee = 100 * 250 / 10000 = 2`
(not 2.5) and `confirmDelivery` transfers 98 units (not 97.5) to the
seller: integer division truncates, so the claimed fractional amounts
are not what the code produces. -/
theorem C4_scenarioA_cex :
    sCompletedDemo.trade.amount = 100 ∧
    sCompletedDemo.trade.platformFee = 2 ∧
    sCompletedDemo.transfersOut = [⟨5, 2, 98⟩, ⟨5, 9, 2⟩] ∧
    ((sCompletedDemo.trade.platformFee : ℚ) ≠ 5 / 2) ∧
    ((98 : ℚ) ≠ 195 / 2) := by
  refine ⟨by decide, by decide, by decide, ?_, by norm_num⟩
  have h : sCompletedDemo.trade.platformFee = 2 := by decide
  rw [h]
  norm_num

/-- C4 amended — with a 250 bps fee rate, the fee on an amount is
`amount * 250 / 10000` in integer arithmetic; for an amount of 100
smallest units this is 2, and `confirmDelivery` transfers 98 units to
the seller and 2 units to the fee recipient. -/
theorem C4_scenarioA_amended :
    (∀ amount : Nat, calculateFee cfgDemo amount = amount * 250 / 10000) ∧
    calculateFee cfgDemo 100 = 2 ∧
    sCompletedDemo.trade.amount = 100 ∧
    sCompletedDemo.trade.platformFee = 2 ∧
    sCompletedDemo.transfersOut = [⟨5, 2, 98⟩, ⟨5, 9, 2⟩] :=
  ⟨fun _ => rfl, by decide, by decide, by decide, by decide⟩

/-! ## Claim C5 -/

/-- C5 — Dispute resolution payout: on any trade in status Disputed,
`resolveDispute` called by a dispute resolver with the winner being the
buyer or the seller succeeds, moves the trade to Resolved, pays the
winner the full amount if the buyer or `amount - platformFee` (fee to
the fee recipient) if the seller, and records the resolution with the
reputation engine, whose `recordDisputeResolution` increments the
winner's disputesWon and the loser's disputesLost. -/
theorem C5_resolveDispute (cfg : EscrowConfig) (s : EscrowState)
    (caller now : Nat) (winner : Address)
    (hrole : cfg.disputeResolverRole caller = true)
    (hst : s.trade.status = .disputed)
    (hbs : s.trade.buyer ≠ s.trade.seller)
    (hw : winner = s.trade.buyer ∨ winner = s.trade.seller) :
    ∃ s', resolveDispute cfg s caller now winner = .ok s' ∧
      s'.trade.status = .resolved ∧
      s'.dispute.winner = winner ∧
      s'.dispute.isResolved = true ∧
      (winner = s.trade.buyer →
        s'.transfersOut = s.transfersOut ++ [⟨s.trade.paymentToken, winner, s.trade.amount⟩]) ∧
      (winner = s.trade.seller →
        s'.transfersOut = s.transfersOut ++
          [⟨s.trade.paymentToken, winner, s.trade.amount - s.trade.platformFee⟩,
           ⟨s.trade.paymentToken, cfg.feeRecipient, s.trade.platformFee⟩]) ∧
      s'.repCalls = s.repCalls ++ [.recordDisputeResolution s.trade.tradeId winner
        (if winner = s.trade.buyer then s.trade.seller else s.trade.buyer)] ∧
      (∀ (e : RepState) (engineCaller : Address) (tid : Nat),
        e.disputeResolverRole engineCaller = true →
        ∃ e', recordDisputeResolution e engineCaller tid winner
            (if winner = s.trade.buyer then s.trade.seller else s.trade.buyer) = .ok e' ∧
          (e'.userReputations winner).disputesWon =
            (e.userReputations winner).disputesWon + 1 ∧
          (e'.userReputations (if winner = s.trade.buyer then s.trade.seller else s.trade.buyer)).disputesLost =
            (e.userReputations (if winner = s.trade.buyer then s.trade.seller else s.trade.buyer)).disputesLost + 1) := by
  unfold resolveDispute
  rw [if_neg (by simp [hrole]), if_neg (by simp [hst]),
    if_neg (by rcases hw with h | h <;> simp [h])]
  have hne : winner ≠ (if winner = s.trade.buyer then s.trade.seller else s.trade.buyer) := by
    by_cases hb : winner = s.trade.buyer
    · rw [if_pos hb, hb]; exact hbs
    · rw [if_neg hb]; exact hb
  refine ⟨_, rfl, rfl, rfl, rfl, ?_, ?_, rfl, ?_⟩
  · intro hwb
    have hws : ¬ winner = s.trade.seller := fun hc => hbs (hwb ▸ hc)
    simp [hws]
  · intro hws
    simp [hws]
  · intro e engineCaller tid he
    unfold recordDisputeResolution
    rw [if_pos he]
    refine ⟨_, rfl, ?_, ?_⟩
    · simp [Function.update_noteq hne, Function.update_same]
    · simp [Function.update_same, Function.update_noteq (Ne.symm hne)]

theorem C5_resolveDispute_witness :
    ∃ s', resolveDispute cfgDemo sDisputedDemo 8 4 1 = .ok s' ∧
      s'.trade.status = .resolved ∧ s'.dispute.winner = 1 := by
  obtain ⟨s', h1, h2, h3, -⟩ :=
    C5_resolveDispute cfgDemo sDisputedDemo 8 4 1 (by decide) (by decide) (by decide)
      (Or.inl (by decide))
  exact ⟨s', h1, h2, h3⟩

/-! ## Claim C8 -/

/-- C8 counterexample — evidence is not accumulated: after the buyer
raises the dispute with evidence "A", a later `submitEvidence` by the
buyer with "B" leaves the buyer's evidence slot equal to "B"; the
earlier "A" is overwritten rather than preserved (the slot is not the
appended "AB"). -/
theorem C8_submitEvidence_cex :
    sDisputedDemo.dispute.buyerEvidence = "A" ∧
    submitEvidence sDisputedDemo 1 "B" = .ok sEvidenceDemo ∧
    sEvidenceDemo.dispute.buyerEvidence = "B" ∧
    sEvidenceDemo.dispute.buyerEvidence ≠ "A" ++ "B" := by
  refine ⟨by decide, rfl, by decide, by decide⟩

/-- C8 amended — `submitEvidence` on a Disputed trade by the buyer or
the seller succeeds and replaces (overwrites) the caller's evidence
slot with the submitted evidence, leaving the other party's slot and
the rest of the dispute record unchanged. -/
theorem C8_submitEvidence_replaces (s : EscrowState) (caller : Nat) (evidence : String)
    (hst : s.trade.status = .disputed) :
    (caller = s.trade.buyer →
      ∃ s', submitEvidence s caller evidence = .ok s' ∧
        s'.dispute.buyerEvidence = evidence ∧
        s'.dispute.sellerEvidence = s.dispute.sellerEvidence ∧
        s'.trade = s.trade ∧ s'.transfersOut = s.transfersOut) ∧
    (caller ≠ s.trade.buyer → caller = s.trade.seller →
      ∃ s', submitEvidence s caller evidence = .ok s' ∧
        s'.dispute.sellerEvidence = evidence ∧
        s'.dispute.buyerEvidence = s.dispute.buyerEvidence ∧
        s'.trade = s.trade ∧ s'.transfersOut = s.transfersOut) := by
  constructor
  · intro hb
    unfold submitEvidence
    rw [if_neg (by simp [hst]), if_neg (by simp [hb]), if_pos hb]
    exact ⟨_, rfl, rfl, rfl, rfl, rfl⟩
  · intro hnb hsl
    unfold submitEvidence
    rw [if_neg (by simp [hst]), if_neg (by simp [hsl]), if_neg hnb]
    exact ⟨_, rfl, rfl, rfl, rfl, rfl⟩

theorem C8_submitEvidence_replaces_witness :
    ∃ s', submitEvidence sDisputedDemo 1 "B" = .ok s' ∧
      s'.dispute.buyerEvidence = "B" ∧
      s'.dispute.sellerEvidence = sDisputedDemo.dispute.sellerEvidence ∧
      s'.trade = sDisputedDemo.trade ∧ s'.transfersOut = sDisputedDemo.transfersOut :=
  (C8_submitEvidence_replaces sDisputedDemo 1 "B" (by decide)).1 (by decide)

/-! ## Claim C9 -/

/-- C9 — implicit invariant: every reachable trade in status Completed
has `buyerRating` in [100,500] (set by `confirmDelivery` from the
validated rating, or to 500 by `autoRelease`), and therefore any
successful `rateBuyer` call on it appends the
`ReputationEngine.recordTrade` invocation with both ratings (the
"both ratings exist" test cannot fail on a Completed trade). -/
theorem C9_completed_rating (cfg : EscrowConfig) (s : EscrowState)
    (hv : cfg.Valid) (hr : Reachable cfg s) :
    (s.trade.status = .completed →
      100 ≤ s.trade.buyerRating ∧ s.trade.buyerRating ≤ 500) ∧
    (∀ caller now rating s', rateBuyer s caller now rating = .ok s' →
      s'.repCalls = s.repCalls ++ [.recordTrade s.trade.tradeId s.trade.seller
        s.trade.buyer s.trade.amount s.trade.buyerRating rating]) := by
  obtain ⟨-, hrate, -⟩ := reachable_inv cfg s hv hr
  refine ⟨hrate, ?_⟩
  intro caller now rating s' h
  unfold rateBuyer at h
  split at h
  · exact Except.noConfusion h
  split at h
  · exact Except.noConfusion h
  split at h
  · exact Except.noConfusion h
  split at h
  · exact Except.noConfusion h
  rename_i hst _ _ _
  rw [not_ne_iff] at hst
  split at h
  · cases h; rfl
  · rename_i hbr0
    rw [not_ne_iff] at hbr0
    have := (hrate hst).1
    omega

theorem C9_completed_rating_witness :
    100 ≤ sCompletedDemo.trade.buyerRating ∧ sCompletedDemo.trade.buyerRating ≤ 500 :=
  (C9_completed_rating cfgDemo sCompletedDemo (by unfold EscrowConfig.Valid; decide)
    (Reachable.step sDeliveredDemo sCompletedDemo (.confirmDelivery 1 3 450)
      (Reachable.step sAcceptedDemo sDeliveredDemo (.markDelivered 2 2 "p")
        (Reachable.step sCreatedDemo sAcceptedDemo (.accept 2 1)
          (Reachable.create 1 2 5 100 "" 0 0 42 sCreatedDemo rfl) rfl) rfl) rfl)).1 rfl

/-! ## Concrete reputation-engine states -/

/-- Freshly deployed badge registry. -/
def badgeDemo : BadgeState :=
  { tokenIdCounter := 0, badgeMetadata := fun _ => none
    userBadges := fun _ _ => 0, userHighestTier := fun _ => .noneT }

/-- Engine deployment on chain 1: escrow contract at address 10, dispute
resolver 11, cross-chain bridge 12. -/
def repDemo : RepState :=
  { userReputations := fun _ => UserReputation.default
    userTradeHistory := fun _ => []
    processedSyncIds := fun _ => false
    badge := badgeDemo
    chainId := 1
    escrowRole := fun a => decide (a = 10)
    disputeResolverRole := fun a => decide (a = 11)
    crossChainRole := fun a => decide (a = 12) }

/-- Engine whose authorized-caller sets are all empty. -/
def repUngated : RepState :=
  { repDemo with
    escrowRole := fun _ => false
    disputeResolverRole := fun _ => false
    crossChainRole := fun _ => false }

/-! ## Claim C6 -/

/-- C6 counterexample — `registerUser` carries no role modifier: address
9, which belongs to none of the authorized-caller sets, calls
`registerUser(7)` and the call succeeds and mutates state (user 7's
reputation record becomes active), contradicting the claim that every
state-mutating ReputationEngine operation fails for callers outside its
authorized set. -/
theorem C6_registerUser_cex :
    repUngated.escrowRole 9 = false ∧
    repUngated.disputeResolverRole 9 = false ∧
    repUngated.crossChainRole 9 = false ∧
    (repUngated.userReputations 7).isActive = false ∧
    registerUser repUngated 9 7 5 = .ok (ensureRegistered repUngated 7 5) ∧
    ((ensureRegistered repUngated 7 5).userReputations 7).isActive = true :=
  ⟨rfl, rfl, rfl, rfl, rfl, by decide⟩

/-- C6 amended — `recordTrade`, `recordDisputeResolution` and
`syncCrossChainReputation` are role-gated: a caller outside the
respective authorized set gets `Unauthorized` and (revert semantics) no
state change; `registerUser`, however, is callable by any principal and
always succeeds, performing the idempotent initialization. -/
theorem C6_role_gating (s : RepState) (caller : Address) :
    (s.escrowRole caller = false →
      ∀ tradeId seller buyer amount sellerRating buyerRating now,
        recordTrade s caller tradeId seller buyer amount sellerRating buyerRating now =
          .error .unauthorized) ∧
    (s.disputeResolverRole caller = false →
      ∀ tradeId winner loser,
        recordDisputeResolution s caller tradeId winner loser = .error .unauthorized) ∧
    (s.crossChainRole caller = false →
      ∀ user sourceChain addTrades addPoints addCount syncId now,
        syncCrossChainReputation s caller user sourceChain addTrades addPoints addCount
          syncId now = .error .unauthorized) ∧
    (∀ user now, registerUser s caller user now = .ok (ensureRegistered s user now)) := by
  refine ⟨?_, ?_, ?_, fun _ _ => rfl⟩
  · intro h tradeId seller buyer amount sellerRating buyerRating now
    unfold recordTrade
    rw [if_neg (by simp [h])]
  · intro h tradeId winner loser
    unfold recordDisputeResolution
    rw [if_neg (by simp [h])]
  · intro h user sourceChain addTrades addPoints addCount syncId now
    unfold syncCrossChainReputation
    rw [if_neg (by simp [h])]

theorem C6_role_gating_witness :
    recordTrade repUngated 9 1 2 3 100 450 450 0 = .error .unauthorized ∧
    recordDisputeResolution repUngated 9 1 2 3 = .error .unauthorized ∧
    syncCrossChainReputation repUngated 9 2 1 5 100 1 77 0 = .error .unauthorized ∧
    registerUser repUngated 9 7 5 = .ok (ensureRegistered repUngated 7 5) := by
  obtain ⟨h1, h2, h3, h4⟩ := C6_role_gating repUngated 9
  exact ⟨h1 rfl 1 2 3 100 450 450 0, h2 rfl 1 2 3, h3 rfl 2 1 5 100 1 77 0, h4 7 5⟩

/-! ## Claim C10 -/

/-- C10 — frame property of `recordDisputeResolution`: for any winner
and loser (registered or not), the call succeeds for an authorized
caller and changes exactly the winner's `disputesWon` and the loser's
`disputesLost`; every other field of their records (in particular
`isActive` and `joinTimestamp`), every other user's record, the trade
histories, the processed-sync set and the badge state are untouched —
no registration happens. -/
theorem C10_recordDisputeResolution_frame (s : RepState) (caller : Address)
    (tid : Nat) (winner loser : Address)
    (hrole : s.disputeResolverRole caller = true)
    (hne : winner ≠ loser) :
    ∃ s', recordDisputeResolution s caller tid winner loser = .ok s' ∧
      s'.userReputations winner =
        { s.userReputations winner with
          disputesWon := (s.userReputations winner).disputesWon + 1 } ∧
      s'.userReputations loser =
        { s.userReputations loser with
          disputesLost := (s.userReputations loser).disputesLost + 1 } ∧
      (∀ u, u ≠ winner → u ≠ loser → s'.userReputations u = s.userReputations u) ∧
      s'.userTradeHistory = s.userTradeHistory ∧
      s'.processedSyncIds = s.processedSyncIds ∧
      s'.badge = s.badge ∧
      (s'.userReputations winner).isActive = (s.userReputations winner).isActive ∧
      (s'.userReputations loser).isActive = (s.userReputations loser).isActive ∧
      (s'.userReputations winner).joinTimestamp = (s.userReputations winner).joinTimestamp ∧
      (s'.userReputations loser).joinTimestamp = (s.userReputations loser).joinTimestamp := by
  unfold recordDisputeResolution
  rw [if_pos hrole]
  refine ⟨_, rfl, ?_, ?_, ?_, rfl, rfl, rfl, ?_, ?_, ?_, ?_⟩
  · simp [Function.update_noteq hne, Function.update_same]
  · simp [Function.update_same, Function.update_noteq (Ne.symm hne)]
  · intro u hu1 hu2
    simp only [Function.update_noteq hu2, Function.update_noteq hu1]
  · simp [Function.update_noteq hne, Function.update_same]
  · simp [Function.update_same, Function.update_noteq (Ne.symm hne)]
  · simp [Function.update_noteq hne, Function.update_same]
  · simp [Function.update_same, Function.update_noteq (Ne.symm hne)]

theorem C10_recordDisputeResolution_frame_witness :
    ∃ s', recordDisputeResolution repDemo 11 1 2 3 = .ok s' ∧
      s'.userReputations 2 =
        { repDemo.userReputations 2 with
          disputesWon := (repDemo.userReputations 2).disputesWon + 1 } ∧
      (s'.userReputations 2).isActive = (repDemo.userReputations 2).isActive := by
  obtain ⟨s', h, hw, -, -, -, -, -, ha, -⟩ :=
    C10_recordDisputeResolution_frame repDemo 11 1 2 3 rfl (by decide)
  exact ⟨s', h, hw, ha⟩

/-! ## Frame lemmas for the engine helpers -/

theorem ensureRegistered_badge (s : RepState) (user : Address) (now : Nat) :
    (ensureRegistered s user now).badge = s.badge := by
  unfold ensureRegistered; split <;> rfl

theorem ensureRegistered_processedSyncIds (s : RepState) (user : Address) (now : Nat) :
    (ensureRegistered s user now).processedSyncIds = s.processedSyncIds := by
  unfold ensureRegistered; split <;> rfl

theorem ensureRegistered_crossChainRole (s : RepState) (user : Address) (now : Nat) :
    (ensureRegistered s user now).crossChainRole = s.crossChainRole := by
  unfold ensureRegistered; split <;> rfl

theorem checkAndMintBadge_userReputations (s : RepState) (user : Address) (now : Nat) :
    (checkAndMintBadge s user now).userReputations = s.userReputations := by
  unfold checkAndMintBadge
  dsimp only
  split
  · split <;> rfl
  · rfl

theorem checkAndMintBadge_processedSyncIds (s : RepState) (user : Address) (now : Nat) :
    (checkAndMintBadge s user now).processedSyncIds = s.processedSyncIds := by
  unfold checkAndMintBadge
  dsimp only
  split
  · split <;> rfl
  · rfl

theorem checkAndMintBadge_crossChainRole (s : RepState) (user : Address) (now : Nat) :
    (checkAndMintBadge s user now).crossChainRole = s.crossChainRole := by
  unfold checkAndMintBadge
  dsimp only
  split
  · split <;> rfl
  · rfl

/-- A successful sync marks its `syncId` processed and leaves the
CROSS_CHAIN_ROLE membership as it was. -/
theorem sync_marks_processed (s : RepState) (caller user : Address)
    (sourceChain addTrades addPoints addCount syncId now : Nat) (s1 : RepState)
    (h : syncCrossChainReputation s caller user sourceChain addTrades addPoints
      addCount syncId now = .ok s1) :
    s1.processedSyncIds syncId = true ∧ s1.crossChainRole = s.crossChainRole := by
  unfold syncCrossChainReputation at h
  split at h
  case isFalse => exact Except.noConfusion h
  case isTrue hrole =>
    split at h
    case isTrue hproc =>
      cases h
      exact ⟨hproc, rfl⟩
    case isFalse hproc =>
      cases h
      constructor
      · rw [checkAndMintBadge_processedSyncIds, ensureRegistered_processedSyncIds]
        exact Function.update_same syncId true s.processedSyncIds
      · rw [checkAndMintBadge_crossChainRole, ensureRegistered_crossChainRole]

/-- A successful inbound dispatch marks the message id processed. -/
theorem ccipReceive_marks_processed (b : BridgeState) (m : InboundMessage) (now : Nat)
    (b1 : BridgeState) (h : ccipReceive b m now = .ok b1) :
    b1.processedMessages m.messageId = true := by
  unfold ccipReceive at h
  dsimp only at h
  split at h
  · exact Except.noConfusion h
  split at h
  · exact Except.noConfusion h
  split at h
  · split at h
    · exact Except.noConfusion h
    · cases h
      exact Function.update_same m.messageId true b.processedMessages
  · split at h
    · cases h
      exact Function.update_same m.messageId true b.processedMessages
    · exact Except.noConfusion h
  · cases h
    exact Function.update_same m.messageId true b.processedMessages

/-! ## Claim C3 -/

/-- Extract the committed state of a successful engine call. -/
def repOkOr (dflt : RepState) : Except RepError RepState → RepState
  | .ok s => s
  | .error _ => dflt

/-- Scenario D, first application: the bridge (address 12) syncs 5
trades with 2250 rating points over 5 ratings for user 3 under sync id
77. -/
def sSync1Demo : RepState :=
  repOkOr repDemo (syncCrossChainReputation repDemo 12 3 2 5 2250 5 77 100)

/-- Scenario D, duplicate application under the same sync id 77. -/
def sSync2Demo : RepState :=
  repOkOr repDemo (syncCrossChainReputation sSync1Demo 12 3 2 5 2250 5 77 101)

/-- C3 — replay/sync idempotency: (1) a second
`syncCrossChainReputation` with an already-used `syncId` returns the
state it was given, unchanged; (2) redelivering an inbound message whose
id was already processed reverts with `MessageAlreadyProcessed`, leaving
the post-first-delivery state intact; (3) Scenario D: syncing
`addTrades = 5` twice under sync id 77 leaves user 3 with 5 total
trades, not 10. -/
theorem C3_sync_idempotent :
    (∀ (s : RepState) (caller user : Address)
        (sourceChain addTrades addPoints addCount syncId now now' : Nat) (s1 : RepState),
      syncCrossChainReputation s caller user sourceChain addTrades addPoints addCount
        syncId now = .ok s1 →
      syncCrossChainReputation s1 caller user sourceChain addTrades addPoints addCount
        syncId now' = .ok s1) ∧
    (∀ (b : BridgeState) (m : InboundMessage) (now now' : Nat) (b1 : BridgeState),
      ccipReceive b m now = .ok b1 →
      ccipReceive b1 m now' = .error .messageAlreadyProcessed) ∧
    (syncCrossChainReputation repDemo 12 3 2 5 2250 5 77 100 = .ok sSync1Demo ∧
     syncCrossChainReputation sSync1Demo 12 3 2 5 2250 5 77 101 = .ok sSync2Demo ∧
     (sSync2Demo.userReputations 3).totalTrades = 5 ∧
     (sSync2Demo.userReputations 3).totalTrades ≠ 10) := by
  refine ⟨?_, ?_, ?_, ?_, ?_, ?_⟩
  · intro s caller user sourceChain addTrades addPoints addCount syncId now now' s1 h
    obtain ⟨hproc, hrole⟩ := sync_marks_processed s caller user sourceChain addTrades
      addPoints addCount syncId now s1 h
    have hrole1 : s.crossChainRole caller = true := by
      unfold syncCrossChainReputation at h
      by_cases hc : s.crossChainRole caller = true
      · exact hc
      · rw [if_neg (by simp [hc])] at h
        exact Except.noConfusion h
    unfold syncCrossChainReputation
    rw [if_pos (by rw [hrole]; exact hrole1), if_pos hproc]
  · intro b m now now' b1 h
    unfold ccipReceive
    rw [if_pos (ccipReceive_marks_processed b m now b1 h)]
  · rfl
  · rfl
  · decide
  · decide

/-! ## Claim C7 -/

/-- Engine state with two users carrying aggregate ratings: user 4 has
901 points over 2 ratings (indivisible), user 6 has 900 points over 2
ratings. -/
def repC7reps : Address → UserReputation :=
  Function.update
    (Function.update (fun _ => UserReputation.default)
      4 ⟨2, 2, 0, 0, 901, 2, 0, 0, true⟩)
    6 ⟨2, 2, 0, 0, 900, 2, 0, 0, true⟩

def repC7 : RepState := { repDemo with userReputations := repC7reps }

/-- Bridge deployed at address 12 over `repC7`, with destination chain
2 active (peer bridge contract 20). -/
def bridgeDemo : BridgeState :=
  { rep := repC7, bridgeAddr := 12
    chainConfigs := fun c =>
      { chainSelector := c, bridgeContract := 20, usdcToken := 5, isActive := decide (c = 2) }
    processedMessages := fun _ => false, usdcBalance := 0, usdcTransfers := [] }

/-- C7 counterexample — the dispatched ReputationSync payload is not the
stored aggregates: user 4 has 901 cumulative rating points over 2
ratings stored in the engine, but `syncReputation` dispatches
`averageRating * successfulTrades = (901 / 2) * 2 = 900` rating points,
losing the remainder of the integer division; 900 ≠ 901, so the payload
does not carry the stored cumulative rating points. -/
theorem C7_syncReputation_cex :
    (bridgeDemo.rep.userReputations 4).totalRatingPoints = 901 ∧
    (bridgeDemo.rep.userReputations 4).ratingCount = 2 ∧
    (bridgeDemo.rep.userReputations 4).successfulTrades = 2 ∧
    syncReputation bridgeDemo 4 2 =
      .ok { messageType := .reputationSync, sender := 4, recipient := 4
            amount := 0, data := (2, 900, 2) } ∧
    (900 : Nat) ≠ 901 := by
  refine ⟨by decide, by decide, by decide, by rfl, by decide⟩

/-- C7 amended — for an active destination chain `syncReputation`
dispatches a ReputationSync message for the caller whose payload is
`(successfulTrades, averageRating * successfulTrades,
successfulTrades)`; this reconstructs the stored aggregates exactly when
the stored rating count equals the successful-trade count and divides
the stored rating points. -/
theorem C7_syncReputation_payload (b : BridgeState) (caller : Address)
    (destinationChain : Nat)
    (hactive : (b.chainConfigs destinationChain).isActive = true) :
    ∃ m, syncReputation b caller destinationChain = .ok m ∧
      m.messageType = .reputationSync ∧ m.sender = caller ∧ m.recipient = caller ∧
      m.data = ((b.rep.userReputations caller).successfulTrades,
        calculateAverageRating b.rep caller * (b.rep.userReputations caller).successfulTrades,
        (b.rep.userReputations caller).successfulTrades) ∧
      ((b.rep.userReputations caller).ratingCount =
          (b.rep.userReputations caller).successfulTrades →
        (b.rep.userReputations caller).ratingCount ∣
          (b.rep.userReputations caller).totalRatingPoints →
        (b.rep.userReputations caller).ratingCount ≠ 0 →
        m.data = ((b.rep.userReputations caller).successfulTrades,
          (b.rep.userReputations caller).totalRatingPoints,
          (b.rep.userReputations caller).ratingCount)) := by
  unfold syncReputation
  rw [if_neg (by simp [hactive])]
  refine ⟨_, rfl, rfl, rfl, rfl, rfl, ?_⟩
  intro hc hd hn
  simp only [syncReputationPayload, calculateAverageRating]
  rw [if_neg hn, ← hc, Nat.div_mul_cancel hd]

theorem C7_syncReputation_payload_witness :
    ∃ m, syncReputation bridgeDemo 6 2 = .ok m ∧
      m.data = ((bridgeDemo.rep.userReputations 6).successfulTrades,
        (bridgeDemo.rep.userReputations 6).totalRatingPoints,
        (bridgeDemo.rep.userReputations 6).ratingCount) := by
  obtain ⟨m, h1, -, -, -, -, h6⟩ := C7_syncReputation_payload bridgeDemo 6 2 (by decide)
  exact ⟨m, h1, h6 (by decide) ⟨450, by decide⟩ (by decide)⟩

/-! ## Claim C2 -/

theorem Tier.toNat_inj : ∀ a b : Tier, a.toNat = b.toNat → a = b := by decide

/-- The function `_determineEligibleTier` returns a non-None tier only when that
tier's thresholds are met. -/
theorem determineEligibleTier_meets (t r : Nat) (T : Tier)
    (h : determineEligibleTier t r = T) (hn : T ≠ .noneT) :
    meetsThreshold T t r = true := by
  unfold determineEligibleTier at h
  split_ifs at h <;> simp_all

theorem updateReputation_badge (s : RepState) (user : Address) (rating : Nat)
    (counterparty : Address) (amount tradeId now : Nat) (wasBuyer : Bool) :
    (updateReputation s user rating counterparty amount tradeId now wasBuyer).badge = s.badge :=
  rfl

theorem calculateAverageRating_reps (s s' : RepState)
    (h : s'.userReputations = s.userReputations) (u : Address) :
    calculateAverageRating s' u = calculateAverageRating s u := by
  unfold calculateAverageRating
  rw [h]

/-- The helper `_checkAndMintBadge` either leaves a user's highest tier unchanged,
or (only for the checked user) raises it strictly to the tier eligible
under the current reputation. -/
theorem checkAndMintBadge_tier_cases (s : RepState) (user : Address) (now : Nat)
    (a : Address) :
    (checkAndMintBadge s user now).badge.userHighestTier a = s.badge.userHighestTier a ∨
    ((checkAndMintBadge s user now).badge.userHighestTier a =
        determineEligibleTier (s.userReputations user).successfulTrades
          (calculateAverageRating s user) ∧
      a = user ∧
      (s.badge.userHighestTier a).toNat <
        ((checkAndMintBadge s user now).badge.userHighestTier a).toNat) := by
  unfold checkAndMintBadge
  dsimp only
  split
  · rename_i hlt
    split
    · rename_i b hb
      unfold mintBadge at hb
      split at hb
      · exact Except.noConfusion hb
      split at hb
      · exact Except.noConfusion hb
      split at hb
      · exact Except.noConfusion hb
      cases hb
      dsimp only
      by_cases ha : a = user
      · right
        subst ha
        simp [hlt]
      · left
        rw [if_neg ha]
    · left
      rfl
  · left
    rfl

theorem checkAndMintBadge_tier_mono (s : RepState) (user : Address) (now : Nat)
    (u : Address) :
    (s.badge.userHighestTier u).toNat ≤
      ((checkAndMintBadge s user now).badge.userHighestTier u).toNat := by
  rcases checkAndMintBadge_tier_cases s user now u with hsame | ⟨-, -, hlt⟩
  · rw [hsame]
  · exact le_of_lt hlt

/-- When `_checkAndMintBadge` raises a user's highest tier, the new tier's
thresholds are met by the user's reputation at that moment. -/
theorem checkAndMintBadge_raise_meets (s : RepState) (user : Address) (now : Nat)
    (u : Address)
    (hlt : (s.badge.userHighestTier u).toNat <
      ((checkAndMintBadge s user now).badge.userHighestTier u).toNat) :
    meetsThreshold ((checkAndMintBadge s user now).badge.userHighestTier u)
      (((checkAndMintBadge s user now).userReputations u).successfulTrades)
      (calculateAverageRating (checkAndMintBadge s user now) u) = true := by
  rcases checkAndMintBadge_tier_cases s user now u with hsame | ⟨heq, hau, -⟩
  · rw [hsame] at hlt
    exact absurd hlt (lt_irrefl _)
  · have hreps := checkAndMintBadge_userReputations s user now
    have hnone : determineEligibleTier (s.userReputations user).successfulTrades
        (calculateAverageRating s user) ≠ .noneT := by
      intro hT
      rw [heq, hT] at hlt
      exact absurd hlt (by simp [Tier.toNat])
    rw [heq, calculateAverageRating_reps _ _ hreps u, hreps, hau]
    exact determineEligibleTier_meets _ _ _ rfl hnone

/-- Two successive badge checks (as `recordTrade` performs for seller
then buyer): a strict raise of any user's tier means the final tier's
thresholds are met by that user's final reputation. -/
theorem double_check_raise_meets (s0 : RepState) (x y : Address) (now : Nat)
    (u : Address)
    (hlt : (s0.badge.userHighestTier u).toNat <
      ((checkAndMintBadge (checkAndMintBadge s0 x now) y now).badge.userHighestTier u).toNat) :
    meetsThreshold
      ((checkAndMintBadge (checkAndMintBadge s0 x now) y now).badge.userHighestTier u)
      (((checkAndMintBadge (checkAndMintBadge s0 x now) y now).userReputations u).successfulTrades)
      (calculateAverageRating (checkAndMintBadge (checkAndMintBadge s0 x now) y now) u) = true := by
  by_cases h2 : ((checkAndMintBadge s0 x now).badge.userHighestTier u).toNat <
      ((checkAndMintBadge (checkAndMintBadge s0 x now) y now).badge.userHighestTier u).toNat
  · exact checkAndMintBadge_raise_meets (checkAndMintBadge s0 x now) y now u h2
  · have hle := checkAndMintBadge_tier_mono (checkAndMintBadge s0 x now) y now u
    have heq : (checkAndMintBadge (checkAndMintBadge s0 x now) y now).badge.userHighestTier u
        = (checkAndMintBadge s0 x now).badge.userHighestTier u :=
      Tier.toNat_inj _ _ (le_antisymm (not_lt.mp h2) hle)
    have h1 : (s0.badge.userHighestTier u).toNat <
        ((checkAndMintBadge s0 x now).badge.userHighestTier u).toNat := by
      rw [heq] at hlt
      exact hlt
    have hm := checkAndMintBadge_raise_meets s0 x now u h1
    rw [heq, calculateAverageRating_reps _ _ (checkAndMintBadge_userReputations _ y now) u,
      checkAndMintBadge_userReputations]
    exact hm

/-- The mutating `ReputationEngine` entry points. -/
inductive RepOp
  | register (caller user : Address) (now : Nat)
  | record (caller : Address) (tradeId : Nat) (seller buyer : Address)
      (amount sellerRating buyerRating now : Nat)
  | resolve (caller : Address) (tradeId : Nat) (winner loser : Address)
  | sync (caller user : Address) (sourceChain addTrades addPoints addCount syncId now : Nat)

/-- Dispatch one engine entry point. -/
def applyRepOp (s : RepState) : RepOp → Except RepError RepState
  | .register caller user now => registerUser s caller user now
  | .record caller tradeId seller buyer amount sellerRating buyerRating now =>
      recordTrade s caller tradeId seller buyer amount sellerRating buyerRating now
  | .resolve caller tradeId winner loser =>
      recordDisputeResolution s caller tradeId winner loser
  | .sync caller user sourceChain addTrades addPoints addCount syncId now =>
      syncCrossChainReputation s caller user sourceChain addTrades addPoints addCount
        syncId now

/-- A reverting call leaves the state unchanged. -/
def applyRepOpOrRevert (s : RepState) (op : RepOp) : RepState :=
  match applyRepOp s op with
  | .ok s' => s'
  | .error _ => s

/-- A sequence of engine calls, each committing or reverting. -/
def applyRepOps (s : RepState) (ops : List RepOp) : RepState :=
  ops.foldl applyRepOpOrRevert s

theorem applyRepOp_tier_mono (s : RepState) (op : RepOp) (s' : RepState)
    (h : applyRepOp s op = .ok s') (u : Address) :
    (s.badge.userHighestTier u).toNat ≤ (s'.badge.userHighestTier u).toNat := by
  cases op with
  | register caller user now =>
    simp only [applyRepOp, registerUser] at h
    cases h
    rw [ensureRegistered_badge]
  | record caller tradeId seller buyer amount sellerRating buyerRating now =>
    simp only [applyRepOp] at h
    unfold recordTrade at h
    split at h
    case isFalse => exact Except.noConfusion h
    case isTrue =>
      split at h
      · exact Except.noConfusion h
      split at h
      · exact Except.noConfusion h
      dsimp only at h
      cases h
      refine le_trans (le_trans ?_ (checkAndMintBadge_tier_mono _ seller now u))
        (checkAndMintBadge_tier_mono _ buyer now u)
      simp only [updateReputation_badge, ensureRegistered_badge]
      exact le_refl _
  | resolve caller tradeId winner loser =>
    simp only [applyRepOp] at h
    unfold recordDisputeResolution at h
    split at h
    · dsimp only at h
      cases h
      exact le_refl _
    · exact Except.noConfusion h
  | sync caller user sourceChain addTrades addPoints addCount syncId now =>
    simp only [applyRepOp] at h
    unfold syncCrossChainReputation at h
    split at h
    case isFalse => exact Except.noConfusion h
    case isTrue =>
      split at h
      · cases h
        exact le_refl _
      · dsimp only at h
        cases h
        refine le_trans ?_ (checkAndMintBadge_tier_mono _ user now u)
        simp only [ensureRegistered_badge]
        exact le_refl _

theorem applyRepOps_tier_mono (s : RepState) (ops : List RepOp) (u : Address) :
    (s.badge.userHighestTier u).toNat ≤
      ((applyRepOps s ops).badge.userHighestTier u).toNat := by
  induction ops generalizing s with
  | nil => exact le_refl _
  | cons op ops ih =>
    refine le_trans ?_ (ih (applyRepOpOrRevert s op))
    unfold applyRepOpOrRevert
    split
    · rename_i s' h
      exact applyRepOp_tier_mono s op s' h u
    · exact le_refl _

theorem applyRepOp_raise_meets (s : RepState) (op : RepOp) (s' : RepState)
    (h : applyRepOp s op = .ok s') (u : Address)
    (hlt : (s.badge.userHighestTier u).toNat < (s'.badge.userHighestTier u).toNat) :
    meetsThreshold (s'.badge.userHighestTier u)
      ((s'.userReputations u).successfulTrades)
      (calculateAverageRating s' u) = true := by
  cases op with
  | register caller user now =>
    simp only [applyRepOp, registerUser] at h
    cases h
    rw [ensureRegistered_badge] at hlt
    exact absurd hlt (lt_irrefl _)
  | record caller tradeId seller buyer amount sellerRating buyerRating now =>
    simp only [applyRepOp] at h
    unfold recordTrade at h
    split at h
    case isFalse => exact Except.noConfusion h
    case isTrue =>
      split at h
      · exact Except.noConfusion h
      split at h
      · exact Except.noConfusion h
      dsimp only at h
      cases h
      apply double_check_raise_meets
      simp only [updateReputation_badge, ensureRegistered_badge] at hlt ⊢
      exact hlt
  | resolve caller tradeId winner loser =>
    simp only [applyRepOp] at h
    unfold recordDisputeResolution at h
    split at h
    · dsimp only at h
      cases h
      exact absurd hlt (lt_irrefl _)
    · exact Except.noConfusion h
  | sync caller user sourceChain addTrades addPoints addCount syncId now =>
    simp only [applyRepOp] at h
    unfold syncCrossChainReputation at h
    split at h
    case isFalse => exact Except.noConfusion h
    case isTrue =>
      split at h
      · cases h
        exact absurd hlt (lt_irrefl _)
      · dsimp only at h
        cases h
        apply checkAndMintBadge_raise_meets
        simp only [ensureRegistered_badge] at hlt ⊢
        exact hlt

/-- C2 — Tier monotonicity: along any sequence of engine operations
(registration, trade recording with its badge checks, dispute
recording, cross-chain sync), a user's highest-tier pointer never
decreases; and any single successful operation that raises it to a new
tier does so only when that tier's trade-count and rating thresholds
are simultaneously met by the user's reputation at that moment (the
strict raise above the previous highest tier being the hypothesis). -/
theorem C2_tier_monotonic (s : RepState) (u : Address) :
    (∀ ops : List RepOp,
      (s.badge.userHighestTier u).toNat ≤
        ((applyRepOps s ops).badge.userHighestTier u).toNat) ∧
    (∀ (op : RepOp) (s' : RepState), applyRepOp s op = .ok s' →
      (s.badge.userHighestTier u).toNat < (s'.badge.userHighestTier u).toNat →
      meetsThreshold (s'.badge.userHighestTier u)
        ((s'.userReputations u).successfulTrades)
        (calculateAverageRating s' u) = true) :=
  ⟨fun ops => applyRepOps_tier_mono s ops u,
   fun op s' h hlt => applyRepOp_raise_meets s op s' h u hlt⟩

/-- Bridge sync raising user 3 from no badge to Bronze: 10 trades with
4000 rating points over 10 ratings (average 4.00). -/
def repBronzeDemo : RepState :=
  repOkOr repDemo (syncCrossChainReputation repDemo 12 3 2 10 4000 10 99 50)

theorem C2_tier_monotonic_witness :
    meetsThreshold (repBronzeDemo.badge.userHighestTier 3)
      ((repBronzeDemo.userReputations 3).successfulTrades)
      (calculateAverageRating repBronzeDemo 3) = true :=
  (C2_tier_monotonic repDemo 3).2 (.sync 12 3 2 10 4000 10 99 50) repBronzeDemo rfl
    (by decide)

/-- The C3 theorem exercised concretely: the duplicate sync under sync
id 77 is a no-op, and redelivering message 55 reverts. -/
def bridgeMsgDemo : InboundMessage :=
  { messageId := 55, sourceChainSelector := 2, senderContract := 20
    body := { messageType := .badgeRecognition, sender := 3, recipient := 3
              amount := 0, data := (0, 0, 0) } }

/-- Extract the committed state of a successful bridge call. -/
def bridgeOkOr (dflt : BridgeState) : Except BridgeError BridgeState → BridgeState
  | .ok b => b
  | .error _ => dflt

def bridgeRecvDemo : BridgeState := bridgeOkOr bridgeDemo (ccipReceive bridgeDemo bridgeMsgDemo 9)

theorem C3_sync_idempotent_witness :
    syncCrossChainReputation sSync1Demo 12 3 2 5 2250 5 77 101 = .ok sSync1Demo ∧
    ccipReceive bridgeRecvDemo bridgeMsgDemo 10 = .error .messageAlreadyProcessed :=
  ⟨C3_sync_idempotent.1 repDemo 12 3 2 5 2250 5 77 100 101 sSync1Demo rfl,
   C3_sync_idempotent.2.1 bridgeDemo bridgeMsgDemo 9 10 bridgeRecvDemo rfl⟩

end Veritas
